import Mathlib

/-!
Shallow embedding of `src/main.py` of the movie-pitch-backend service:
input validation (`WheelInput.validate_list`), prompt construction and the
generation endpoint (`generate_pitch`), the health endpoint (`health_check`),
and the sliding-window rate limiter configured as `10/minute`.
Strings are Lean `String`s; Python `len` on a string is the character count
(`String.length`); Python list truthiness is emptiness.
-/

namespace MoviePitchBackend

/-- MAX_LIST_LENGTH = 5 (src/main.py line 25). -/
def MAX_LIST_LENGTH : Nat := 5

/-- MAX_STRING_LENGTH = 100 (src/main.py line 26). -/
def MAX_STRING_LENGTH : Nat := 100

/-- Characters Python's `str.strip()` removes (ASCII whitespace per `str.isspace`). -/
def isPySpace (c : Char) : Bool :=
  c = ' ' || c = '\t' || c = '\n' || c = '\r' || c = '\x0b' || c = '\x0c'

/-- Python `str.strip()` on the character list: drop leading and trailing whitespace. -/
def stripChars (l : List Char) : List Char :=
  (l.dropWhile isPySpace).rdropWhile isPySpace

/-- Python `item.strip()`. -/
def pyStrip (s : String) : String :=
  String.mk (stripChars s.data)

/-- Failure reasons of `WheelInput.validate_list` (the four `ValueError`s of
src/main.py lines 38, 40, 43, 45, in the spec's taxonomy names). -/
inductive ValidationError where
  | TooManyItems
  | EmptyList
  | ItemTooLong
  | EmptyItem
deriving DecidableEq, Repr

/-- Body of the `for item in v` loop in `validate_list` (src/main.py lines 41-45):
the first item whose raw length exceeds MAX_STRING_LENGTH raises `ItemTooLong`,
the first whose stripped form is empty raises `EmptyItem`; length is checked
before emptiness on each item. -/
def checkItems : List String → Option ValidationError
  | [] => none
  | item :: rest =>
      if item.length > MAX_STRING_LENGTH then some .ItemTooLong
      else if pyStrip item = "" then some .EmptyItem
      else checkItems rest

/-- Validator `WheelInput.validate_list` (src/main.py lines 34-46): reject lists longer
than MAX_LIST_LENGTH, empty lists, items of raw length above MAX_STRING_LENGTH,
and whitespace-only items; on success return every item stripped, in order. -/
def validate_list (v : List String) : Except ValidationError (List String) :=
  if v.length > MAX_LIST_LENGTH then .error .TooManyItems
  else if v.isEmpty then .error .EmptyList
  else
    match checkItems v with
    | some e => .error e
    | none => .ok (v.map pyStrip)

/-- The four request fields (src/main.py lines 28-32). -/
structure WheelInput where
  characters : List String
  locations : List String
  genres : List String
  creatives : List String
deriving DecidableEq, Repr

/-- Pydantic applies `validate_list` to each of the four fields; the model is
constructed only when all four succeed. -/
def validate_wheel (w : WheelInput) : Except ValidationError WheelInput := do
  let c ← validate_list w.characters
  let l ← validate_list w.locations
  let g ← validate_list w.genres
  let r ← validate_list w.creatives
  Except.ok ⟨c, l, g, r⟩

/-- Structured generation result (src/main.py lines 48-51). -/
structure MoviePitch where
  title : String
  tagline : String
  pitch : String
deriving DecidableEq, Repr

/-- Python `", ".join(xs)` (src/main.py lines 89-92). -/
def joinComma : List String → String
  | [] => ""
  | [s] => s
  | s :: rest => s ++ ", " ++ joinComma rest

/-- The prompt built in `generate_pitch` (src/main.py lines 88-102): the
f-string template interpolating the four comma-joined fields. -/
def compose_prompt (input_data : WheelInput) : String :=
  "Create a movie pitch based on this specific combination:\n" ++
  "- Mix these Genres: " ++ joinComma input_data.genres ++ "\n" ++
  "- Featuring these Characters: " ++ joinComma input_data.characters ++ "\n" ++
  "- Set in these Locations: " ++ joinComma input_data.locations ++ "\n" ++
  "- In the style of: " ++ joinComma input_data.creatives ++ "\n\n" ++
  "Ensure the plot makes sense despite the chaotic mix."

/-- Outcome of `await pitch_agent.run(prompt)`: either a structured pitch or an
exception carrying some detail string (timeout, transport error, malformed
output, schema mismatch — all surface as a raised exception). -/
inductive AgentOutcome where
  | success : MoviePitch → AgentOutcome
  | failure : String → AgentOutcome
deriving DecidableEq, Repr

/-- An HTTPException as raised by the endpoint: status code and detail. -/
structure HTTPError where
  status_code : Nat
  detail : String
deriving DecidableEq, Repr

/-- Body of the `generate_pitch` endpoint (src/main.py lines 87-112) for an
already-validated input: compose the prompt, run the agent on it, return its
output on success, and map every exception to `HTTPException(500, "AI
generation failed.")`. The external agent is an oracle from prompt to outcome. -/
def generate_pitch (input_data : WheelInput) (agent : String → AgentOutcome) :
    Except HTTPError MoviePitch :=
  match agent (compose_prompt input_data) with
  | .success p => Except.ok p
  | .failure _ => Except.error ⟨500, "AI generation failed."⟩

/-- Body returned by `health_check` (src/main.py lines 115-117) as a key-value
record. -/
def health_check : List (String × String) := [("status", "healthy")]

/-- Dispatch of `GET /health` in the running app: the only process-wide mutable
state is the limiter's per-identity windows, and the handler takes no state at
all, so the response is the constant 200 with the `health_check` body. The
state parameter records that the response is computed in a server carrying
that state. -/
def handle_health (_windows : List (String × List Nat)) :
    Nat × List (String × String) :=
  (200, health_check)

/-- Modelled from the spec: the sliding-window admission decision of the
RateLimiter. The algorithm lives in the slowapi library, not in src/; only its
configuration is in src/main.py (`limiter = Limiter(key_func=get_remote_address)`
line 65, `@limiter.limit("10/minute")` line 86, giving K = 10 admissions per
rolling window W = 60 seconds per client identity). Per the spec, on a request
at time T the identity's stored admission timestamps older than T − W are
discarded; if fewer than K remain the request is admitted and T appended,
otherwise it is rejected. -/
def W : Nat := 60

/-- Modelled from the spec: K, the admission quota per window (`10/minute`). -/
def K : Nat := 10

/-- Result of one admission decision: whether the request was admitted, and the
identity's stored window afterwards. -/
structure RateDecision where
  admitted : Bool
  window : List Nat
deriving DecidableEq, Repr

/-- Modelled from the spec: one sliding-window step for one identity at time
`T` given its stored timestamps `ts`: discard timestamps older than `T − W`,
admit iff fewer than `K` remain, appending `T` on admission. -/
def rateCheck (T : Nat) (ts : List Nat) : RateDecision :=
  let kept := ts.filter (fun t => decide (T - W ≤ t))
  if kept.length < K then ⟨true, kept ++ [T]⟩ else ⟨false, kept⟩

/-- Modelled from the spec: feed a sequence of request times from one identity
through the rate limiter, returning the admission decisions in order and the
final stored window. -/
def runRequests (ts0 : List Nat) : List Nat → List Bool × List Nat
  | [] => ([], ts0)
  | T :: rest =>
      let d := rateCheck T ts0
      let r := runRequests d.window rest
      (d.admitted :: r.1, r.2)

/-! Lemmas about Python strip. -/

theorem stripChars_dropWhile (l : List Char) :
    (stripChars l).dropWhile isPySpace = stripChars l := by
  rw [stripChars, List.dropWhile_eq_self_iff]
  intro hl
  have hpre := List.rdropWhile_prefix isPySpace (l.dropWhile isPySpace)
  have hlen : 0 < (l.dropWhile isPySpace).length := Nat.lt_of_lt_of_le hl hpre.length_le
  have hne := List.dropWhile_get_zero_not isPySpace l hlen
  simpa [List.get_eq_getElem, hpre.getElem hl] using hne

theorem stripChars_idem (l : List Char) : stripChars (stripChars l) = stripChars l := by
  calc stripChars (stripChars l)
      = ((stripChars l).dropWhile isPySpace).rdropWhile isPySpace := rfl
    _ = (stripChars l).rdropWhile isPySpace := by rw [stripChars_dropWhile]
    _ = stripChars l := List.rdropWhile_idempotent isPySpace _

theorem stripChars_length_le (l : List Char) : (stripChars l).length ≤ l.length :=
  Nat.le_trans (List.rdropWhile_prefix isPySpace _).length_le
    (List.dropWhile_suffix isPySpace).length_le

theorem pyStrip_data (s : String) : (pyStrip s).data = stripChars s.data := rfl

theorem pyStrip_idem (s : String) : pyStrip (pyStrip s) = pyStrip s :=
  congrArg String.mk (stripChars_idem s.data)

theorem pyStrip_length_le (s : String) : (pyStrip s).length ≤ s.length :=
  stripChars_length_le s.data

theorem pyStrip_eq_empty_iff (s : String) : pyStrip s = "" ↔ stripChars s.data = [] :=
  ⟨fun h => congrArg String.data h, fun h => by rw [pyStrip, h]⟩

/-! Lemmas about the per-item loop and `validate_list`. -/

theorem checkItems_cons (item : String) (rest : List String) :
    checkItems (item :: rest) =
      if item.length > MAX_STRING_LENGTH then some .ItemTooLong
      else if pyStrip item = "" then some .EmptyItem
      else checkItems rest := rfl

theorem checkItems_eq_none_iff (v : List String) :
    checkItems v = none ↔ ∀ s ∈ v, s.length ≤ MAX_STRING_LENGTH ∧ pyStrip s ≠ "" := by
  induction v with
  | nil => simp [checkItems]
  | cons item rest ih =>
      rw [checkItems_cons]
      by_cases hlen : item.length > MAX_STRING_LENGTH
      · rw [if_pos hlen]
        constructor
        · intro h; exact absurd h (by simp)
        · intro h
          exact absurd (h item (List.mem_cons_self item rest)).1 (Nat.not_le.mpr hlen)
      · rw [if_neg hlen]
        by_cases hemp : pyStrip item = ""
        · rw [if_pos hemp]
          constructor
          · intro h; exact absurd h (by simp)
          · intro h
            exact absurd hemp (h item (List.mem_cons_self item rest)).2
        · rw [if_neg hemp, ih]
          constructor
          · intro h s hs
            rcases List.mem_cons.mp hs with h1 | h1
            · subst h1; exact ⟨Nat.le_of_not_lt hlen, hemp⟩
            · exact h s h1
          · intro h s hs
            exact h s (List.mem_cons_of_mem item hs)

theorem checkItems_itemTooLong_iff (v : List String)
    (h : ∀ s ∈ v, pyStrip s ≠ "") :
    checkItems v = some .ItemTooLong ↔ ∃ s ∈ v, MAX_STRING_LENGTH < s.length := by
  induction v with
  | nil => simp [checkItems]
  | cons item rest ih =>
      rw [checkItems_cons]
      by_cases hlen : item.length > MAX_STRING_LENGTH
      · rw [if_pos hlen]
        constructor
        · intro
          exact ⟨item, List.mem_cons_self item rest, hlen⟩
        · intro
          rfl
      · rw [if_neg hlen, if_neg (h item (List.mem_cons_self item rest)),
          ih fun s hs => h s (List.mem_cons_of_mem item hs)]
        constructor
        · rintro ⟨s, hs, hlong⟩
          exact ⟨s, List.mem_cons_of_mem item hs, hlong⟩
        · rintro ⟨s, hs, hlong⟩
          rcases List.mem_cons.mp hs with h1 | h1
          · subst h1; exact absurd hlong hlen
          · exact ⟨s, h1, hlong⟩

theorem validate_list_not_long (v : List String) (h : ¬ v.length > MAX_LIST_LENGTH)
    (hne : 0 < v.length) :
    validate_list v =
      (match checkItems v with
        | some e => Except.error e
        | none => Except.ok (v.map pyStrip)) := by
  match v, hne with
  | item :: rest, _ =>
      rw [validate_list, if_neg h, if_neg (by simp [List.isEmpty])]

theorem validate_list_ok_of_valid (v : List String)
    (h1 : 0 < v.length) (h2 : v.length ≤ MAX_LIST_LENGTH)
    (h3 : ∀ s ∈ v, s.length ≤ MAX_STRING_LENGTH ∧ pyStrip s ≠ "") :
    validate_list v = Except.ok (v.map pyStrip) := by
  rw [validate_list_not_long v (Nat.not_lt.mpr h2) h1,
    (checkItems_eq_none_iff v).mpr h3]

theorem validate_list_ok_inv (v w : List String)
    (h : validate_list v = Except.ok w) :
    w = v.map pyStrip ∧ 0 < v.length ∧ v.length ≤ MAX_LIST_LENGTH ∧
      ∀ s ∈ v, s.length ≤ MAX_STRING_LENGTH ∧ pyStrip s ≠ "" := by
  by_cases h2 : v.length > MAX_LIST_LENGTH
  · rw [validate_list, if_pos h2] at h
    exact absurd h (by simp)
  · by_cases h1 : v.length = 0
    · rw [validate_list, if_neg h2, if_pos (by simpa [List.isEmpty_iff, List.length_eq_zero] using h1)] at h
      exact absurd h (by simp)
    · rw [validate_list_not_long v h2 (Nat.pos_of_ne_zero h1)] at h
      cases hc : checkItems v with
      | some e => rw [hc] at h; exact absurd h (by simp)
      | none =>
          rw [hc] at h
          refine ⟨by injection h with h; exact h.symm, Nat.pos_of_ne_zero h1,
            Nat.le_of_not_lt h2, (checkItems_eq_none_iff v).mp hc⟩

/-- A field value all of whose elements the validator's per-item checks admit:
1 to MAX_LIST_LENGTH elements, each of raw length at most MAX_STRING_LENGTH and
nonempty after stripping. -/
def ValidField (v : List String) : Prop :=
  0 < v.length ∧ v.length ≤ MAX_LIST_LENGTH ∧
    ∀ s ∈ v, s.length ≤ MAX_STRING_LENGTH ∧ pyStrip s ≠ ""

/-- An element of raw length 101 whose stripped form is the single character
"a": 100 leading spaces followed by "a". -/
def longPadded : String := String.mk (List.replicate 100 ' ' ++ ['a'])

/-- C1 counterexample: `longPadded` has raw length 101 and trimmed length 1,
yet `validate_list` rejects the list `[longPadded]` with `ItemTooLong` — the
code checks `len(item)` on the raw item (src/main.py line 42), so an element
whose raw length exceeds 100 but whose trimmed length is at most 100 IS
rejected for length, contrary to the claim. -/
theorem itemTooLong_checks_raw_length_cex :
    longPadded.length = 101 ∧ (pyStrip longPadded).length ≤ MAX_STRING_LENGTH ∧
      validate_list [longPadded] = Except.error ValidationError.ItemTooLong :=
  ⟨by decide, by decide, by rfl⟩

/-- C1 (amended): for every list of 1 to 5 elements none of which is
whitespace-only, the validator fails with `ItemTooLong` exactly when some
element's RAW length (before any trimming) exceeds MAX_STRING_LENGTH = 100. -/
theorem itemTooLong_iff_raw_length (v : List String)
    (h1 : 0 < v.length) (h2 : v.length ≤ MAX_LIST_LENGTH)
    (h3 : ∀ s ∈ v, pyStrip s ≠ "") :
    validate_list v = Except.error ValidationError.ItemTooLong ↔
      ∃ s ∈ v, MAX_STRING_LENGTH < s.length := by
  rw [validate_list_not_long v (Nat.not_lt.mpr h2) h1,
    ← checkItems_itemTooLong_iff v h3]
  cases hc : checkItems v with
  | none => simp
  | some e => simp

/-- Witness for C1's amended theorem at the concrete list `[longPadded]`. -/
theorem itemTooLong_iff_raw_length_witness :
    validate_list [longPadded] = Except.error ValidationError.ItemTooLong :=
  (itemTooLong_iff_raw_length [longPadded] (by decide) (by decide)
      (by decide)).mpr ⟨longPadded, by simp, by decide⟩

/-- C4: a WheelInput whose four fields each hold 1 to 5 elements that are
nonempty after trimming and of length at most 100 is accepted, and each field
comes back with every element replaced by its trimmed form, order and count
preserved (the result is exactly `List.map pyStrip` of the original field). -/
theorem validator_accepts_valid_input (w : WheelInput)
    (hc : ValidField w.characters) (hl : ValidField w.locations)
    (hg : ValidField w.genres) (hr : ValidField w.creatives) :
    validate_wheel w = Except.ok
      ⟨w.characters.map pyStrip, w.locations.map pyStrip,
        w.genres.map pyStrip, w.creatives.map pyStrip⟩ := by
  have e1 := validate_list_ok_of_valid w.characters hc.1 hc.2.1 hc.2.2
  have e2 := validate_list_ok_of_valid w.locations hl.1 hl.2.1 hl.2.2
  have e3 := validate_list_ok_of_valid w.genres hg.1 hg.2.1 hg.2.2
  have e4 := validate_list_ok_of_valid w.creatives hr.1 hr.2.1 hr.2.2
  simp only [validate_wheel, e1, e2, e3, e4]
  rfl

/-- Witness for C4 at a concrete request (the spec's end-to-end scenario A,
with whitespace padding on one element to exhibit the normalization). -/
theorem validator_accepts_valid_input_witness :
    validate_wheel ⟨["A Grizzled Detective"], [" Mars Colony "],
        ["Noir", "Sci-Fi"], ["Wes Anderson"]⟩ =
      Except.ok ⟨["A Grizzled Detective"], ["Mars Colony"],
        ["Noir", "Sci-Fi"], ["Wes Anderson"]⟩ :=
  validator_accepts_valid_input
    ⟨["A Grizzled Detective"], [" Mars Colony "], ["Noir", "Sci-Fi"], ["Wes Anderson"]⟩
    ⟨by decide, by decide, by decide⟩ ⟨by decide, by decide, by decide⟩
    ⟨by decide, by decide, by decide⟩ ⟨by decide, by decide, by decide⟩

/-- C9: validation is idempotent — whenever `validate_list` accepts `v` and
returns `w`, running it again on `w` accepts and returns `w` unchanged, because
trimming an already-trimmed element is the identity. -/
theorem validate_list_idempotent (v w : List String)
    (h : validate_list v = Except.ok w) :
    validate_list w = Except.ok w := by
  obtain ⟨hw, h1, h2, h3⟩ := validate_list_ok_inv v w h
  subst hw
  have hlen : (v.map pyStrip).length = v.length := List.length_map v pyStrip
  have hitems : ∀ s ∈ v.map pyStrip, s.length ≤ MAX_STRING_LENGTH ∧ pyStrip s ≠ "" := by
    intro s hs
    obtain ⟨t, ht, rfl⟩ := List.mem_map.mp hs
    exact ⟨Nat.le_trans (pyStrip_length_le t) (h3 t ht).1,
      by rw [pyStrip_idem]; exact (h3 t ht).2⟩
  rw [validate_list_ok_of_valid (v.map pyStrip) (by rw [hlen]; exact h1)
    (by rw [hlen]; exact h2) hitems, List.map_map]
  exact congrArg Except.ok (List.map_congr_left fun a _ => pyStrip_idem a)

/-- Witness for C9 at a concrete accepted list. -/
theorem validate_list_idempotent_witness :
    validate_list ["hi", "x"] = Except.ok ["hi", "x"] :=
  validate_list_idempotent ["  hi  ", "x"] ["hi", "x"] (by rfl)

/-! Lemmas about the prompt template. -/

theorem joinComma_cons2 (s y : String) (t : List String) :
    joinComma (s :: y :: t) = s ++ ", " ++ joinComma (y :: t) := rfl

/-- The prompt decomposes into the five template literals with the four joined
field strings interpolated, in the order genres, characters, locations,
creatives. -/
theorem compose_prompt_data (w : WheelInput) :
    (compose_prompt w).data =
      ("Create a movie pitch based on this specific combination:\n- Mix these Genres: ").data ++
        (joinComma w.genres).data ++
        ("\n- Featuring these Characters: ").data ++ (joinComma w.characters).data ++
        ("\n- Set in these Locations: ").data ++ (joinComma w.locations).data ++
        ("\n- In the style of: ").data ++ (joinComma w.creatives).data ++
        ("\n\nEnsure the plot makes sense despite the chaotic mix.").data := by
  simp only [compose_prompt, String.data_append, List.append_assoc]
  rfl

/-- Every member of a list appears contiguously in its comma-space join. -/
theorem joinComma_decomp (s : String) (l : List String) (h : s ∈ l) :
    ∃ a b : List Char, (joinComma l).data = a ++ s.data ++ b := by
  induction l with
  | nil => cases h
  | cons x rest ih =>
      rcases List.mem_cons.mp h with rfl | hmem
      · cases rest with
        | nil => exact ⟨[], [], by simp [joinComma]⟩
        | cons y t =>
            exact ⟨[], (", ").data ++ (joinComma (y :: t)).data,
              by simp [joinComma_cons2, String.data_append, List.append_assoc]⟩
      · cases rest with
        | nil => cases hmem
        | cons y t =>
            obtain ⟨a, b, hab⟩ := ih hmem
            exact ⟨x.data ++ (", ").data ++ a, b,
              by simp [joinComma_cons2, String.data_append, hab, List.append_assoc]⟩

/-- C5: for every WheelInput, the composed prompt consists of the four
comma-space-joined field strings in the relative order genres, characters,
locations, creatives, and the final segment after the last field is the fixed
closing instruction demanding plot coherence. -/
theorem prompt_field_order (w : WheelInput) :
    ∃ s1 s2 s3 s4 s5 : List Char,
      (compose_prompt w).data =
        s1 ++ (joinComma w.genres).data ++ s2 ++ (joinComma w.characters).data ++
          s3 ++ (joinComma w.locations).data ++ s4 ++ (joinComma w.creatives).data ++ s5 ∧
        s5 = ("\n\nEnsure the plot makes sense despite the chaotic mix.").data :=
  ⟨_, _, _, _, _, compose_prompt_data w, rfl⟩

/-- C7: prompt composition is deterministic and stateless — it is a pure
function of the validated WheelInput alone, so two calls on the same input
yield the identical prompt string. -/
theorem compose_prompt_deterministic (w1 w2 : WheelInput) (h : w1 = w2) :
    compose_prompt w1 = compose_prompt w2 :=
  congrArg compose_prompt h

/-- Witness for C7 at a concrete input. -/
theorem compose_prompt_deterministic_witness :
    compose_prompt ⟨["A Grizzled Detective"], ["Mars Colony"], ["Noir", "Sci-Fi"], ["Wes Anderson"]⟩ =
      compose_prompt ⟨["A Grizzled Detective"], ["Mars Colony"], ["Noir", "Sci-Fi"], ["Wes Anderson"]⟩ :=
  compose_prompt_deterministic
    ⟨["A Grizzled Detective"], ["Mars Colony"], ["Noir", "Sci-Fi"], ["Wes Anderson"]⟩
    ⟨["A Grizzled Detective"], ["Mars Colony"], ["Noir", "Sci-Fi"], ["Wes Anderson"]⟩ rfl

/-- C10: every element of every field of a WheelInput appears verbatim as a
contiguous substring of the composed prompt — no escaping, quoting or
sanitization is applied before interpolation. -/
theorem prompt_contains_elements_verbatim (w : WheelInput) (s : String)
    (h : s ∈ w.characters ∨ s ∈ w.locations ∨ s ∈ w.genres ∨ s ∈ w.creatives) :
    ∃ a b : List Char, (compose_prompt w).data = a ++ s.data ++ b := by
  rcases h with h | h | h | h
  · obtain ⟨a, b, hab⟩ := joinComma_decomp s w.characters h
    exact ⟨("Create a movie pitch based on this specific combination:\n- Mix these Genres: ").data ++
        (joinComma w.genres).data ++ ("\n- Featuring these Characters: ").data ++ a,
      b ++ ("\n- Set in these Locations: ").data ++ (joinComma w.locations).data ++
        ("\n- In the style of: ").data ++ (joinComma w.creatives).data ++
        ("\n\nEnsure the plot makes sense despite the chaotic mix.").data,
      by rw [compose_prompt_data w, hab]; simp [List.append_assoc]⟩
  · obtain ⟨a, b, hab⟩ := joinComma_decomp s w.locations h
    exact ⟨("Create a movie pitch based on this specific combination:\n- Mix these Genres: ").data ++
        (joinComma w.genres).data ++ ("\n- Featuring these Characters: ").data ++
        (joinComma w.characters).data ++ ("\n- Set in these Locations: ").data ++ a,
      b ++ ("\n- In the style of: ").data ++ (joinComma w.creatives).data ++
        ("\n\nEnsure the plot makes sense despite the chaotic mix.").data,
      by rw [compose_prompt_data w, hab]; simp [List.append_assoc]⟩
  · obtain ⟨a, b, hab⟩ := joinComma_decomp s w.genres h
    exact ⟨("Create a movie pitch based on this specific combination:\n- Mix these Genres: ").data ++ a,
      b ++ ("\n- Featuring these Characters: ").data ++ (joinComma w.characters).data ++
        ("\n- Set in these Locations: ").data ++ (joinComma w.locations).data ++
        ("\n- In the style of: ").data ++ (joinComma w.creatives).data ++
        ("\n\nEnsure the plot makes sense despite the chaotic mix.").data,
      by rw [compose_prompt_data w, hab]; simp [List.append_assoc]⟩
  · obtain ⟨a, b, hab⟩ := joinComma_decomp s w.creatives h
    exact ⟨("Create a movie pitch based on this specific combination:\n- Mix these Genres: ").data ++
        (joinComma w.genres).data ++ ("\n- Featuring these Characters: ").data ++
        (joinComma w.characters).data ++ ("\n- Set in these Locations: ").data ++
        (joinComma w.locations).data ++ ("\n- In the style of: ").data ++ a,
      b ++ ("\n\nEnsure the plot makes sense despite the chaotic mix.").data,
      by rw [compose_prompt_data w, hab]; simp [List.append_assoc]⟩

/-- Witness for C10: the element "Noir" of the genres field occurs verbatim in
the concrete prompt. -/
theorem prompt_contains_elements_verbatim_witness :
    ∃ a b : List Char,
      (compose_prompt ⟨["A Grizzled Detective"], ["Mars Colony"], ["Noir", "Sci-Fi"],
        ["Wes Anderson"]⟩).data = a ++ ("Noir").data ++ b :=
  prompt_contains_elements_verbatim
    ⟨["A Grizzled Detective"], ["Mars Colony"], ["Noir", "Sci-Fi"], ["Wes Anderson"]⟩
    "Noir" (Or.inr (Or.inr (Or.inl (by simp))))

/-- C6: every exception from the external generation call is mapped uniformly
to the single generic 500 failure with detail "AI generation failed." — the
raw detail string never reaches the caller, and no MoviePitch (partial or
otherwise) is returned on failure. -/
theorem generation_failure_uniform (w : WheelInput) (agent : String → AgentOutcome)
    (d : String) (h : agent (compose_prompt w) = AgentOutcome.failure d) :
    generate_pitch w agent = Except.error ⟨500, "AI generation failed."⟩ ∧
      ∀ p : MoviePitch, generate_pitch w agent ≠ Except.ok p := by
  constructor
  · simp only [generate_pitch, h]
  · intro p hp
    simp only [generate_pitch, h] at hp
    exact Except.noConfusion hp

/-- Witness for C6: an agent that times out with an internal detail string
yields exactly the generic 500 failure. -/
theorem generation_failure_uniform_witness :
    generate_pitch ⟨["A Grizzled Detective"], ["Mars Colony"], ["Noir", "Sci-Fi"], ["Wes Anderson"]⟩
        (fun _ => AgentOutcome.failure "upstream socket timeout") =
      Except.error ⟨500, "AI generation failed."⟩ :=
  (generation_failure_uniform
    ⟨["A Grizzled Detective"], ["Mars Colony"], ["Noir", "Sci-Fi"], ["Wes Anderson"]⟩
    (fun _ => AgentOutcome.failure "upstream socket timeout")
    "upstream socket timeout" rfl).1

/-- C8: GET /health always answers 200 with body status = healthy, whatever
the rate limiter's per-identity windows hold, and its response does not depend
on that state in any way. -/
theorem health_always_healthy :
    ∀ windows : List (String × List Nat),
      handle_health windows = (200, [("status", "healthy")]) ∧
        ∀ windows2 : List (String × List Nat),
          handle_health windows = handle_health windows2 :=
  fun _ => ⟨rfl, fun _ => rfl⟩

/-! Lemmas about the sliding-window rate limiter. -/

theorem rateCheck_admits (T : Nat) (ts : List Nat)
    (hkeep : ∀ x ∈ ts, T - W ≤ x) (hlen : ts.length < K) :
    rateCheck T ts = ⟨true, ts ++ [T]⟩ := by
  show (if (ts.filter fun t => decide (T - W ≤ t)).length < K then _ else _) = _
  have hf : (ts.filter fun t => decide (T - W ≤ t)) = ts :=
    List.filter_eq_self.mpr fun a ha => decide_eq_true (hkeep a ha)
  rw [hf, if_pos hlen]

theorem rateCheck_rejects (T : Nat) (ts : List Nat)
    (hkeep : ∀ x ∈ ts, T - W ≤ x) (hlen : ¬ ts.length < K) :
    rateCheck T ts = ⟨false, ts⟩ := by
  show (if (ts.filter fun t => decide (T - W ≤ t)).length < K then _ else _) = _
  have hf : (ts.filter fun t => decide (T - W ≤ t)) = ts :=
    List.filter_eq_self.mpr fun a ha => decide_eq_true (hkeep a ha)
  rw [hf, if_neg hlen]

theorem runRequests_append (xs : List Nat) :
    ∀ (win ys : List Nat),
      runRequests win (xs ++ ys) =
        ((runRequests win xs).1 ++ (runRequests (runRequests win xs).2 ys).1,
          (runRequests (runRequests win xs).2 ys).2) := by
  induction xs with
  | nil => intro win ys; rfl
  | cons T rest ih =>
      intro win ys
      simp only [List.cons_append, runRequests, List.append_eq]
      rw [ih (rateCheck T win).window ys]

/-- While at most `K` requests in all have arrived and everything (stored and
incoming) lies within one window `[lo, lo + W]`, every request is admitted and
the timestamps accumulate in order. -/
theorem runRequests_all_admitted (reqs : List Nat) :
    ∀ (win : List Nat) (lo : Nat),
      (∀ x ∈ win, lo ≤ x ∧ x ≤ lo + W) →
      (∀ T ∈ reqs, lo ≤ T ∧ T ≤ lo + W) →
      win.length + reqs.length ≤ K →
      runRequests win reqs = (reqs.map fun _ => true, win ++ reqs) := by
  induction reqs with
  | nil => intro win lo _ _ _; simp [runRequests]
  | cons T rest ih =>
      intro win lo hwin hreq hlen
      have hT := hreq T (List.mem_cons_self T rest)
      have hadmit : rateCheck T win = ⟨true, win ++ [T]⟩ := by
        refine rateCheck_admits T win (fun x hx => ?_) (by simp at hlen; omega)
        have hx2 := hwin x hx
        have : T - W ≤ lo := Nat.sub_le_iff_le_add.mpr hT.2
        omega
      have hwin2 : ∀ x ∈ win ++ [T], lo ≤ x ∧ x ≤ lo + W := by
        intro x hx
        rcases List.mem_append.mp hx with hx | hx
        · exact hwin x hx
        · rcases List.mem_singleton.mp hx with rfl
          exact hT
      have hrest : ∀ S ∈ rest, lo ≤ S ∧ S ≤ lo + W :=
        fun S hS => hreq S (List.mem_cons_of_mem T hS)
      have hlen2 : (win ++ [T]).length + rest.length ≤ K := by
        simp at hlen ⊢; omega
      simp only [runRequests, hadmit, ih (win ++ [T]) lo hwin2 hrest hlen2]
      simp [List.map_cons, List.append_assoc]

/-- C3 (spec-modelled): for a burst of 11 requests from one identity all within
`W` = 60 seconds of the first, the sliding window with `K` = 10 admits exactly
the first 10 and rejects the 11th; and any later request strictly more than
`W` after the 1st admitted request is admitted again, since the 1st timestamp
has aged out of the window. -/
theorem rate_limiter_burst (t1 tNew : Nat) (rest : List Nat)
    (hlen : rest.length = 10)
    (hin : ∀ T ∈ rest, t1 ≤ T ∧ T ≤ t1 + W)
    (hNew : t1 + W < tNew) :
    (runRequests [] (t1 :: rest)).1 = List.replicate 10 true ++ [false] ∧
      (rateCheck tNew (runRequests [] (t1 :: rest)).2).admitted = true := by
  have hne : rest ≠ [] := by intro h; rw [h] at hlen; simp at hlen
  have hsplit : t1 :: rest = (t1 :: rest.dropLast) ++ [rest.getLast hne] := by
    rw [List.cons_append, List.dropLast_append_getLast hne]
  have hdropLen : rest.dropLast.length = 9 := by
    rw [List.length_dropLast, hlen]
  have hdropMem : ∀ T ∈ rest.dropLast, t1 ≤ T ∧ T ≤ t1 + W :=
    fun T hT => hin T ((List.dropLast_sublist rest).subset hT)
  have hlast := hin (rest.getLast hne) (List.getLast_mem hne)
  have hfirst10 : runRequests [] (t1 :: rest.dropLast) =
      ((t1 :: rest.dropLast).map fun _ => true, [] ++ (t1 :: rest.dropLast)) := by
    refine runRequests_all_admitted (t1 :: rest.dropLast) [] t1 (by simp) ?_ ?_
    · intro T hT
      rcases List.mem_cons.mp hT with rfl | hT
      · exact ⟨Nat.le_refl _, Nat.le_add_right _ W⟩
      · exact hdropMem T hT
    · simp [hdropLen, K]
  have hwinMem : ∀ x ∈ t1 :: rest.dropLast, t1 ≤ x ∧ x ≤ t1 + W := by
    intro x hx
    rcases List.mem_cons.mp hx with rfl | hx
    · exact ⟨Nat.le_refl x, Nat.le_add_right x W⟩
    · exact hdropMem x hx
  have hreject : rateCheck (rest.getLast hne) (t1 :: rest.dropLast) =
      ⟨false, t1 :: rest.dropLast⟩ := by
    refine rateCheck_rejects _ _ (fun x hx => ?_) ?_
    · have hx2 := hwinMem x hx
      have : rest.getLast hne - W ≤ t1 := Nat.sub_le_iff_le_add.mpr hlast.2
      omega
    · simp [hdropLen, K]
  constructor
  · rw [hsplit, runRequests_append, hfirst10]
    simp only [List.nil_append, runRequests, hreject]
    rw [List.map_const']
    simp [hdropLen]
  · rw [hsplit, runRequests_append, hfirst10]
    simp only [List.nil_append, runRequests, hreject]
    show (rateCheck tNew (t1 :: rest.dropLast)).admitted = true
    have ht1 : ¬ (tNew - W ≤ t1) := by omega
    show (if ((t1 :: rest.dropLast).filter fun t => decide (tNew - W ≤ t)).length < K
        then RateDecision.mk true _ else RateDecision.mk false _).admitted = true
    rw [List.filter_cons_of_neg (by simpa using ht1),
      if_pos (Nat.lt_of_le_of_lt (List.length_filter_le _ rest.dropLast)
        (by rw [hdropLen]; exact by norm_num [K]))]

/-- Witness for C3 at a concrete burst: requests at seconds 0..10 (11 requests
within one minute) followed by a request at second 61. -/
theorem rate_limiter_burst_witness :
    (runRequests [] [0, 1, 2, 3, 4, 5, 6, 7, 8, 9, 10]).1 =
        List.replicate 10 true ++ [false] ∧
      (rateCheck 61 (runRequests [] [0, 1, 2, 3, 4, 5, 6, 7, 8, 9, 10]).2).admitted = true :=
  rate_limiter_burst 0 61 [1, 2, 3, 4, 5, 6, 7, 8, 9, 10] (by decide)
    (by decide) (by decide)

end MoviePitchBackend
